import Mathlib

/-
Verification development for the data-viewer module
(src/cpp/session/modules/data/DataViewer.cpp).

The C++ source is shallowly embedded as executable Lean definitions:

* strings are `List Char`;
* R SEXP values are opaque identifiers (`Nat`); a NULL / nil SEXP is
  modelled as `Option.none` wherever the code checks for it;
* the R runtime (nrow, ncol, `.rs.findWorkingData`, `.rs.applyTransform`,
  formatting, object resolution, ...) is an oracle record `Engine` whose
  fields model the semantics of `r::exec::RFunction::call`: a call either
  fails with an error message or produces a (possibly nil) result, and on
  failure the output parameter is left untouched;
* C++ doubles parsed from decimal digit strings are modelled as exact
  rationals (the digit strings produced by the numeric-filter regex denote
  exact decimals);
* uninitialized C++ members (`CachedFrame::ncol`, `workingOrderCol` on the
  early-return construction path) are modelled by arbitrary junk values
  carried in the `Engine` record, so theorems quantified over the engine
  hold for every possible junk value;
* the global `std::map<std::string, CachedFrame> s_cachedFrames` is an
  association list with unique keys, threaded through each operation.
-/

set_option autoImplicit false

/-- Strings of the C++ source, as lists of characters. -/
abbrev Str := List Char

/-- Maximal run of ASCII digits at the head of a string (regex `\d*`). -/
def digitRun (s : Str) : Str := s.takeWhile Char.isDigit

/-- Numeric value of a string of decimal digits. -/
def digitsToNat (s : Str) : Nat :=
  s.foldl (fun n c => 10 * n + (c.toNat - '0'.toNat)) 0

/-- Exact rational denoted by the decimal `d`.`f` (integer digits `d`,
fractional digits `f`); models the `double` produced by
`safe_convert::stringTo<double>` on such a token. -/
def numVal (d f : Str) : ℚ :=
  mkRat (digitsToNat (d ++ f)) (10 ^ f.length)

/-- Parse a token of the shape `\d+` or `\d+.\d*` to its exact decimal
value; `none` if the string has any other shape.  Models
`boost::lexical_cast<double>` on the capture groups of the numeric-filter
regex (which always have this shape). -/
def numTokenParse (s : Str) : Option ℚ :=
  let d := digitRun s
  if d = [] then none
  else
    match s.drop d.length with
    | [] => some (numVal d [])
    | '.' :: r => if r.all Char.isDigit then some (numVal d r) else none
    | _ => none

/-- `safe_convert::stringTo<double>(s, 0)`: parse failures yield `0`. -/
def stringToQ (s : Str) : ℚ := (numTokenParse s).getD 0

/-- Greedy match of `\d+\.?\d*` at the head of the string with nothing
constraining what follows (the second capture group of the numeric-filter
regex, which sits at the end of the pattern). -/
def numGreedy (s : Str) : Option Str :=
  let d := digitRun s
  if d = [] then none
  else
    match s.drop d.length with
    | '.' :: r => some (d ++ '.' :: digitRun r)
    | _ => some d

/-- Match of the full pattern `(\d+\.?\d*)-(\d+\.?\d*)` anchored at the
head of the string, returning the two capture groups.  This reproduces the
leftmost/greedy-with-backtracking semantics of `boost::regex` on this
pattern: the first group takes the maximal digit run, then a dot together
with the following maximal digit run when the next character after those
digits is the dash; any other continuation makes the anchored match fail
(backtracking can only move the required dash onto a digit or a dot, which
never succeeds). -/
def matchFilterAt (s : Str) : Option (Str × Str) :=
  let d := digitRun s
  if d = [] then none
  else
    match s.drop d.length with
    | '-' :: r =>
      match numGreedy r with
      | some g2 => some (d, g2)
      | none => none
    | '.' :: r =>
      let f := digitRun r
      match r.drop f.length with
      | '-' :: r2 =>
        match numGreedy r2 with
        | some g2 => some (d ++ '.' :: f, g2)
        | none => none
      | _ => none
    | _ => none

/-- `boost::regex_search` with the pattern `(\d+\.?\d*)-(\d+\.?\d*)`:
the match at the leftmost position where one exists, returning the two
capture groups (the bounds of the numeric filter). -/
def searchNumFilter : Str → Option (Str × Str)
  | [] => none
  | c :: rest =>
    match matchFilterAt (c :: rest) with
    | some m => some m
    | none => searchNumFilter rest

/-- `isFilterSubset(outer, inner)` from DataViewer.cpp: true when every
row matching `inner` also matches `outer`.  Identical strings short-cut to
true; if both strings contain a numeric-range substring the first such
range in each is compared by bound containment (unparsable bounds read as
0); otherwise `outer` must be a string prefix of `inner`. -/
def isFilterSubset (outer inner : Str) : Bool :=
  if inner = outer then true
  else
    match searchNumFilter inner, searchNumFilter outer with
    | some (il, iu), some (ol, ou) =>
      decide (stringToQ il ≥ stringToQ ol ∧ stringToQ iu ≤ stringToQ ou)
    | _, _ =>
      if inner.length < outer.length then false
      else if inner.take outer.length ≠ outer then false
      else true

/-- The registry value type: one `CachedFrame` per active viewer, tracking
the location of the frame, its last observed shape, the parameters of the
materialized working transform, and the last observed (unprotected) SEXP
pointer. -/
structure CachedFrame where
  envName : Str
  objName : Str
  ncol : Nat
  colNames : List Str
  workingSearch : Str
  workingFilters : List Str
  workingOrderCol : Int
  workingOrderDir : Str
  observedSEXP : Option Nat
deriving DecidableEq, Repr

/-- `CachedFrame::isSupersetOf`: the working transform covers the request
when the working search is a subset-superset match for the new search and
each working filter is one for the new filter at the same index, over the
shorter of the two filter lists. -/
def CachedFrame.isSupersetOf (f : CachedFrame) (newSearch : Str)
    (newFilters : List Str) : Bool :=
  isFilterSubset f.workingSearch newSearch &&
  (List.range (min newFilters.length f.workingFilters.length)).all
    (fun i => isFilterSubset (f.workingFilters.getD i []) (newFilters.getD i []))

/-- The oracle for the R runtime, plus junk values standing in for
uninitialized C++ members. -/
structure Engine where
  nrowOf : Nat → Int
  ncolOf : Nat → Nat
  colNamesOf : Nat → Option (List Str)
  resolveEnv : Str → Option Nat
  findVar : Nat → Str → Option Nat
  findWorkingData : Str → Option Nat
  applyTransform : Nat → List Str → Str → Int → Str → Except Str (Option Nat)
  findDataFrame : Str → Str → Str → Except Str (Option Nat)
  formatDataColumn : Nat → Int → Int → Except Str (Option Nat)
  formatRowNames : Nat → Int → Int → Option Nat
  column : Nat → Nat → Option Nat
  stringElt : Nat → Nat → Option Str
  describeCols : Nat → Nat
  junkNcol : Nat
  junkOrderCol : Int

/-- The sentinel environment name `_rs_no_env` for unbound data. -/
def kNoBoundEnv : Str := "_rs_no_env".toList

/-- `findInNamedEnvir`: resolve an object by environment name and object
name; the unbound sentinel, an unresolvable environment, and an unbound
variable all yield NULL. -/
def findInNamedEnvir (eng : Engine) (envir name : Str) : Option Nat :=
  if envir = kNoBoundEnv then none
  else
    match eng.resolveEnv envir with
    | none => none
    | some e => eng.findVar e name

/-- The `CachedFrame(env, obj, sexp)` constructor: records the location
and the observed SEXP; for a non-NULL SEXP it caches column names and
column count, for NULL it returns early leaving `ncol` uninitialized
(junk) and the name list empty.  `workingOrderCol` is uninitialized on
both paths and the remaining working fields are default-constructed. -/
def CachedFrame.make (eng : Engine) (env obj : Str) (sexp : Option Nat) :
    CachedFrame :=
  { envName := env
    objName := obj
    ncol := match sexp with
      | some s => eng.ncolOf s
      | none => eng.junkNcol
    colNames := match sexp with
      | some s => (eng.colNamesOf s).getD []
      | none => []
    workingSearch := []
    workingFilters := []
    workingOrderCol := eng.junkOrderCol
    workingOrderDir := []
    observedSEXP := sexp }

/-- The registry `s_cachedFrames`, an association list keyed by cache
key. -/
abbrev Registry := List (Str × CachedFrame)

/-- `s_cachedFrames.find(key)`. -/
def findFrame : Registry → Str → Option CachedFrame
  | [], _ => none
  | (k, f) :: t, key => if k = key then some f else findFrame t key

/-- `s_cachedFrames[key] = frame` (replace an existing entry, else
insert). -/
def setFrame : Registry → Str → CachedFrame → Registry
  | [], key, nf => [(key, nf)]
  | (k, f) :: t, key, nf =>
    if k = key then (key, nf) :: t else (k, f) :: setFrame t key nf

/-- The DataTables query parameters read by `getData`. -/
structure Req where
  draw : Int
  start : Int
  length : Int
  ordercol : Int
  orderdir : Str
  search : Str
  colSearch : Nat → Str

/-- The per-column filter list: `columns[i][search][value]` for columns
`1 .. ncol`. -/
def filtersFor (req : Req) (ncol : Nat) : List Str :=
  (List.range ncol).map (fun i => req.colSearch (i + 1))

/-- `needsTransform`: the request carries an order column, a column
filter, or a global search. -/
def needsTransformReq (eng : Engine) (dataIn : Nat) (req : Req) : Bool :=
  decide (0 < req.ordercol) ||
  (filtersFor req (eng.ncolOf dataIn)).any (fun fv => decide (fv ≠ [])) ||
  decide (req.search ≠ [])

/-- A cell of the response grid: a formatted string, or a numeric row
label synthesized when no row name is available. -/
inductive Cell where
  | str (s : Str)
  | num (n : Int)
deriving DecidableEq, Repr

/-- The JSON object assembled by `getData` on success. -/
structure GridOut where
  draw : Int
  recordsTotal : Int
  recordsFiltered : Int
  grid : List (List Cell)
deriving DecidableEq, Repr

/-- The observable outcome of one `getData` call: the registry after the
call, the trace of the transform decision, the clamped page geometry, and
either the response object or the message of the thrown
`RErrorException`. -/
structure GDState where
  reg : Registry
  transformCalled : Bool
  transformInput : Option Nat
  needsTransform : Bool
  hasTransform : Bool
  filteredNRow : Int
  effLength : Int
  effStart : Int
  result : Except Str GridOut
deriving Repr

/-- Error message thrown when a column of the (transformed) data is
NULL. -/
def noDataMsg (i : Nat) : Str := "No data in column ".toList ++ (toString i).toList

/-- Error message thrown when the transform produced a nil result. -/
def transformFailMsg : Str := "Failure to sort or filter data".toList

/-- Lines 431-452 of `getData`: format each column slice; a NULL column
or a failing `.rs.formatDataColumn` call throws, with the engine error
message propagated. -/
def formatCols (eng : Engine) (dataCur ncol : Nat) (start len : Int) :
    Except Str (List (Option Nat)) :=
  (List.range ncol).mapM (fun i =>
    match eng.column dataCur i with
    | none => Except.error (noDataMsg i)
    | some c => eng.formatDataColumn c start len)

/-- Lines 454-517 of `getData`: format the row names (failures ignored,
falling back to synthesized numeric labels) and assemble the response
object from the formatted columns. -/
def pageResult (eng : Engine) (req : Req) (dataIn dataCur : Nat)
    (filteredNRow len start : Int) : Except Str GridOut :=
  match formatCols eng dataCur (eng.ncolOf dataIn) start len with
  | Except.error e => Except.error e
  | Except.ok fcols =>
    let rns : Option Nat := eng.formatRowNames dataCur start len
    let grid : List (List Cell) :=
      (List.range len.toNat).map (fun row =>
        let label : Cell :=
          match rns with
          | some rn =>
            match eng.stringElt rn row with
            | some s => Cell.str s
            | none => Cell.num ((row : Int) + start)
          | none => Cell.num ((row : Int) + start)
        label :: fcols.map (fun fc =>
          match fc with
          | some c =>
            match eng.stringElt c row with
            | some s => Cell.str s
            | none => Cell.str []
          | none => Cell.str []))
    Except.ok
      { draw := req.draw, recordsTotal := eng.nrowOf dataIn
        recordsFiltered := filteredNRow, grid := grid }

/-- Lines 419-429 plus 431-517 of `getData`: compute the filtered row
count, clamp the page length to the rows available (with no lower bound),
convert the start index from 0-based to 1-based, and delegate to
`pageResult` for formatting and grid assembly. -/
def finishPage (eng : Engine) (reg : Registry) (req : Req) (dataIn dataCur : Nat)
    (needsT hasT : Bool) (tInput : Option Nat) : GDState :=
  let filteredNRow : Int :=
    if needsT || hasT then eng.nrowOf dataCur else eng.nrowOf dataIn
  let len : Int := min req.length (filteredNRow - req.start)
  { reg := reg, transformCalled := needsT, transformInput := tInput
    needsTransform := needsT, hasTransform := hasT
    filteredNRow := filteredNRow, effLength := len, effStart := req.start + 1
    result := pageResult eng req dataIn dataCur filteredNRow len (req.start + 1) }

/-- Recording the new working parameters on the registry entry after a
successful transform. -/
def recordParams (f : CachedFrame) (req : Req) (filters : List Str) :
    CachedFrame :=
  { f with workingSearch := req.search, workingFilters := filters
           workingOrderDir := req.orderdir, workingOrderCol := req.ordercol }

/-- Lines 386-417 of `getData`: the transform block.  The error returned
by `transform.call` is discarded by the source (the subsequent
`if (error)` tests a stale variable that is still `Success`), so on a
failing call the data pointer is simply left untouched; a nil result
throws `Failure to sort or filter data`; on success the working data is
saved (the error of that call is likewise ignored) and the new parameters
are recorded on the registry entry when one exists. -/
def transformOutcome (eng : Engine) (dataIn : Nat) (req : Req) (data1 : Nat) :
    Option Nat :=
  match eng.applyTransform data1 (filtersFor req (eng.ncolOf dataIn))
      req.search req.ordercol req.orderdir with
  | Except.error _ => some data1
  | Except.ok v => v

/-- Lines 410-416 of `getData`: after a successful transform, record the
new working parameters on the registry entry when one exists. -/
def recordReg (reg : Registry) (cacheKey : Str) (cf : Option CachedFrame)
    (req : Req) (filters : List Str) : Registry :=
  match cf with
  | some f => setFrame reg cacheKey (recordParams f req filters)
  | none => reg

/-- Lines 386-417 of `getData`, continued: a nil outcome throws
`Failure to sort or filter data`; otherwise the working data is saved
(the error of that call is likewise ignored), the new parameters are
recorded, and the page is assembled from the transformed data. -/
def getDataTransform (eng : Engine) (reg : Registry) (cacheKey : Str)
    (dataIn : Nat) (req : Req) (cf : Option CachedFrame) (data1 : Nat) :
    GDState :=
  match transformOutcome eng dataIn req data1 with
  | none =>
    { reg := reg, transformCalled := true, transformInput := some data1
      needsTransform := true, hasTransform := false
      filteredNRow := 0, effLength := 0, effStart := req.start + 1
      result := Except.error transformFailMsg }
  | some data2 =>
    finishPage eng
      (recordReg reg cacheKey cf req (filtersFor req (eng.ncolOf dataIn)))
      req dataIn data2 true false (some data1)

/-- Lines 350-384 of `getData`: when a transform is needed and the cache
key has a registry entry and the engine holds previously materialized
working data, an exact parameter match reuses that data verbatim (no
transform), a superset match feeds it to the transform as input, and
otherwise the raw data is transformed from scratch. -/
def getDataWorking (eng : Engine) (reg : Registry) (cacheKey : Str)
    (dataIn : Nat) (req : Req) (f : CachedFrame) (wdOpt : Option Nat) :
    GDState :=
  match wdOpt with
  | some wd =>
    if f.workingSearch = req.search ∧
       f.workingFilters = filtersFor req (eng.ncolOf dataIn) ∧
       f.workingOrderDir = req.orderdir ∧ f.workingOrderCol = req.ordercol then
      finishPage eng reg req dataIn wd false true none
    else if f.isSupersetOf req.search (filtersFor req (eng.ncolOf dataIn)) then
      getDataTransform eng reg cacheKey dataIn req (some f) wd
    else
      getDataTransform eng reg cacheKey dataIn req (some f) dataIn
  | none => getDataTransform eng reg cacheKey dataIn req (some f) dataIn

/-- `getData(dataSEXP, fields)`: serve one DataTables page request against
the data resolved for the cache key. -/
def getData (eng : Engine) (reg : Registry) (cacheKey : Str) (dataIn : Nat)
    (req : Req) : GDState :=
  match needsTransformReq eng dataIn req, findFrame reg cacheKey with
  | true, some f =>
    getDataWorking eng reg cacheKey dataIn req f (eng.findWorkingData cacheKey)
  | true, none => getDataTransform eng reg cacheKey dataIn req none dataIn
  | false, _ => finishPage eng reg req dataIn dataIn false false none

/-- The `/grid_data` query parameters read by `getGridData`. -/
structure GridReq where
  hasQuery : Bool
  envName : Str
  objName : Str
  cacheKey : Str
  showParam : Str
  dreq : Req

/-- The response body written by `getGridData`. -/
inductive Body where
  | errB (msg : Str)
  | colsB (meta : Nat)
  | dataB (g : GridOut)
  | nullB
deriving DecidableEq, Repr

/-- Body of the resolution-failure response. -/
def objGoneMsg : Str := "The object no longer exists.".toList

/-- Lines 556-564 of `getGridData`: unless the environment is the unbound
sentinel, look the object up and insert a freshly constructed
`CachedFrame` for the cache key when none is registered yet. -/
def observeFrame (eng : Engine) (reg : Registry) (q : GridReq) : Registry :=
  if q.envName ≠ kNoBoundEnv then
    match findFrame reg q.cacheKey with
    | some _ => reg
    | none =>
      setFrame reg q.cacheKey
        (CachedFrame.make eng q.envName q.objName
          (findInNamedEnvir eng q.envName q.objName))
  else reg

/-- `getGridData`: the `/grid_data` URI handler.  Returns the optional
response (HTTP status and body; `none` models the early returns that
leave the response unwritten) and the registry after the call.

The source keeps two status variables: `status`, initialized to `Ok` and
written into the response at the end, and a dead local `statusCode` that
receives `NotFound` on the resolution-failure path but is never read, so
the resolution-failure response actually carries status 200.  An
`RErrorException` from the data path is caught and answered with status
500 and the exception message as the error body. -/
def resolveData (eng : Engine) (q : GridReq) : Option Nat :=
  match eng.findDataFrame q.envName q.objName q.cacheKey with
  | Except.error _ => none
  | Except.ok v => v

/-- The `show=data` branch of `getGridData`: run `getData`; an
`RErrorException` is caught and answered with status 500 and the message
as the error body; registry mutations made before a throw persist. -/
def dataBranch (eng : Engine) (reg1 : Registry) (cacheKey : Str) (d : Nat)
    (dreq : Req) : Option (Nat × Body) × Registry :=
  match (getData eng reg1 cacheKey d dreq).result with
  | Except.ok g => (some (200, Body.dataB g), (getData eng reg1 cacheKey d dreq).reg)
  | Except.error e => (some (500, Body.errB e), (getData eng reg1 cacheKey d dreq).reg)

def getGridData (eng : Engine) (reg : Registry) (q : GridReq) :
    Option (Nat × Body) × Registry :=
  if ¬q.hasQuery then (none, reg)
  else if q.objName = [] ∧ q.cacheKey = [] then (none, reg)
  else
    match resolveData eng q with
    | none => (some (200, Body.errB objGoneMsg), observeFrame eng reg q)
    | some d =>
      if q.showParam = "cols".toList then
        (some (200, Body.colsB (eng.describeCols d)), observeFrame eng reg q)
      else if q.showParam = "data".toList then
        dataBranch eng (observeFrame eng reg q) q.cacheKey d q.dreq
      else (some (200, Body.nullB), observeFrame eng reg q)

/-- Whether the change scan considers a frame changed: its re-resolved
SEXP differs from the observed one (including becoming unresolvable). -/
def frameChanged (eng : Engine) (f : CachedFrame) : Bool :=
  decide (findInNamedEnvir eng f.envName f.objName ≠ f.observedSEXP)

/-- The replacement entry built by `onDetectChanges` for a changed
frame. -/
def detectStep (eng : Engine) (p : Str × CachedFrame) : Str × CachedFrame :=
  if frameChanged eng p.2 then
    (p.1, CachedFrame.make eng p.2.envName p.2.objName
      (findInNamedEnvir eng p.2.envName p.2.objName))
  else p

/-- The `data_view_changed` events emitted by one scan: for every changed
frame, the cache key together with the `structure_changed` flag comparing
the recorded column count and column names against the fresh frame's. -/
def detectEvents (eng : Engine) (reg : Registry) : List (Str × Bool) :=
  reg.filterMap (fun p =>
    if frameChanged eng p.2 then
      let nf := CachedFrame.make eng p.2.envName p.2.objName
        (findInNamedEnvir eng p.2.envName p.2.objName)
      some (p.1, decide (p.2.ncol ≠ nf.ncol ∨ p.2.colNames ≠ nf.colNames))
    else none)

/-- The cache keys whose working data the scan discards via
`.rs.removeWorkingData`. -/
def detectDiscards (eng : Engine) (reg : Registry) : List Str :=
  reg.filterMap (fun p => if frameChanged eng p.2 then some p.1 else none)

/-- `onDetectChanges`: scan every registered frame, and for each whose
re-resolved identity differs from the observed one, discard its working
data, emit a `data_view_changed` event, and replace the registry entry
with a freshly constructed frame. -/
def onDetectChanges (eng : Engine) (reg : Registry) :
    Registry × List (Str × Bool) × List Str :=
  (reg.map (detectStep eng), detectEvents eng reg, detectDiscards eng reg)

/-- Parse an entire string as a token `\d+` or `\d+.\d*` followed by `-`
followed by another such token, with nothing else around them.  This is
the reading of the spec sentence in which both filter strings must parse
wholly as the numeric range pattern `<lower>-<upper>`. -/
def parseWholeRange (s : Str) : Option (ℚ × ℚ) :=
  let left := s.takeWhile (fun c => c ≠ '-')
  match s.drop left.length with
  | '-' :: right =>
    match numTokenParse left, numTokenParse right with
    | some l, some r => some (l, r)
    | _, _ => none
  | _ => none

/-- Modelled from the spec's words for claim C2: equal strings are
subsets; otherwise, when both strings parse (in their entirety) as a
numeric range, compare the bounds; otherwise require `outer` to be a
string prefix of `inner`. -/
def isFilterSubsetClaimC2 (outer inner : Str) : Bool :=
  if inner = outer then true
  else
    match parseWholeRange inner, parseWholeRange outer with
    | some (il, iu), some (ol, ou) => decide (il ≥ ol ∧ iu ≤ ou)
    | _, _ =>
      decide (outer.length ≤ inner.length) &&
      decide (inner.take outer.length = outer)

/-- Modelled from the spec's words for the amended claim C2: same as the
claim except that the numeric rule applies when both strings contain a
numeric-range substring, compared on the leftmost match in each. -/
def isFilterSubsetAmendedSpec (outer inner : Str) : Bool :=
  decide (inner = outer) ||
  (match searchNumFilter inner, searchNumFilter outer with
   | some (il, iu), some (ol, ou) =>
     decide (stringToQ il ≥ stringToQ ol ∧ stringToQ iu ≤ stringToQ ou)
   | _, _ =>
     decide (outer.length ≤ inner.length ∧ inner.take outer.length = outer))

/-
Concrete fixtures used by witness, counterexample, and code-bug
theorems.  `engBase` is a small engine: data object 0 has 5 rows and one
column, every other object has 3 rows; formatting always succeeds.
-/

/-- Cache key used by the concrete fixtures. -/
def kKey : Str := "K".toList

/-- Base fixture engine. -/
def engBase : Engine :=
  { nrowOf := fun d => if d = 0 then 5 else 3
    ncolOf := fun _ => 1
    colNamesOf := fun _ => some ["a".toList]
    resolveEnv := fun _ => some 0
    findVar := fun _ _ => some 0
    findWorkingData := fun _ => none
    applyTransform := fun _ _ _ _ _ => Except.ok (some 1)
    findDataFrame := fun _ _ _ => Except.ok (some 0)
    formatDataColumn := fun _ _ _ => Except.ok (some 7)
    formatRowNames := fun _ _ _ => none
    column := fun _ _ => some 3
    stringElt := fun _ _ => some "v".toList
    describeCols := fun _ => 0
    junkNcol := 99
    junkOrderCol := -7 }

/-- A plain page request: no search, no filters, no ordering; first 10
rows requested. -/
def reqPlain : Req :=
  { draw := 1, start := 0, length := 10, ordercol := -1,
    orderdir := "asc".toList, search := [], colSearch := fun _ => [] }

/-- Same as `reqPlain` but starting past the end of the 5 filtered
rows. -/
def reqFar : Req :=
  { reqPlain with start := 7 }

/-- Same as `reqPlain` but with global search `app`. -/
def reqSearch : Req :=
  { reqPlain with search := "app".toList }

/-- Engine whose transform call fails with an engine error message. -/
def engErr : Engine :=
  { engBase with applyTransform := fun _ _ _ _ _ => Except.error "boom".toList }

/-- Engine for which the object cannot be resolved. -/
def engGone : Engine :=
  { engBase with findDataFrame := fun _ _ _ => Except.ok none }

/-- Engine holding previously materialized working data (object 9, which
has 3 rows). -/
def engWd : Engine :=
  { engBase with findWorkingData := fun _ => some 9 }

/-- A grid request for object `x` in the global environment. -/
def qReq : GridReq :=
  { hasQuery := true, envName := [], objName := "x".toList,
    cacheKey := kKey, showParam := "data".toList, dreq := reqPlain }

/-- Same grid request but with the unbound-environment sentinel. -/
def qNoEnv : GridReq :=
  { qReq with envName := "_rs_no_env".toList }

/-- A registry entry whose recorded working parameters match `reqSearch`
exactly. -/
def fRec : CachedFrame :=
  { envName := [], objName := "x".toList, ncol := 1,
    colNames := ["a".toList], workingSearch := "app".toList,
    workingFilters := [[]], workingOrderCol := -1,
    workingOrderDir := "asc".toList, observedSEXP := some 0 }

/-- Registry holding `fRec` under `kKey`. -/
def regRec : Registry := [(kKey, fRec)]

/-- A registry entry with an all-empty working search and filter set. -/
def fEmpty : CachedFrame :=
  { fRec with workingSearch := [], workingFilters := [[]] }

/-- A registry entry with a single working filter, for exercising
trailing unmatched filter indices. -/
def fTrail : CachedFrame :=
  { fRec with workingSearch := [], workingFilters := ["1-10".toList] }

/-- A registry entry observing object 0 with shape 2 x (a, b). -/
def fObs : CachedFrame :=
  { fRec with
    ncol := 2
    colNames := ["a".toList, "b".toList]
    observedSEXP := some 0 }

/-- Engine for the change scan: the object re-resolves to a new identity
(8) with a third column added. -/
def engCh : Engine :=
  { engBase with
    findVar := fun _ _ => some 8
    ncolOf := fun d => if d = 8 then 3 else 2
    colNamesOf := fun d =>
      if d = 8 then some ["a".toList, "b".toList, "c".toList]
      else some ["a".toList, "b".toList] }

/-- Engine for the change scan: the object re-resolves to a new identity
(8) with the same shape (content-only change). -/
def engCh2 : Engine :=
  { engCh with
    ncolOf := fun _ => 2
    colNamesOf := fun _ => some ["a".toList, "b".toList] }

/-- The response object produced for `reqPlain` against `engBase`: five
rows, each a synthesized numeric label followed by one formatted cell. -/
def gPlain : GridOut :=
  { draw := 1, recordsTotal := 5, recordsFiltered := 5,
    grid := (List.range 5).map (fun row =>
      [Cell.num ((row : Int) + 1), Cell.str "v".toList]) }

/-
Shared helper lemmas.
-/

/-- Fields of a successful `pageResult`. -/
theorem pageResult_ok (eng : Engine) (req : Req) (dataIn dataCur : Nat)
    (filteredNRow len start : Int) (g : GridOut)
    (h : pageResult eng req dataIn dataCur filteredNRow len start = Except.ok g) :
    g.recordsFiltered = filteredNRow ∧ g.recordsTotal = eng.nrowOf dataIn ∧
    g.draw = req.draw ∧ g.grid.length = len.toNat := by
  unfold pageResult at h
  split at h
  · cases h
  · simp only [Except.ok.injEq] at h
    subst h
    simp

/-- Looking up the key just set finds the new frame. -/
theorem findFrame_setFrame_self (reg : Registry) (k : Str) (v : CachedFrame) :
    findFrame (setFrame reg k v) k = some v := by
  induction reg with
  | nil => simp [setFrame, findFrame]
  | cons p t ih =>
    obtain ⟨a, b⟩ := p
    by_cases h : a = k
    · simp [setFrame, h, findFrame]
    · simp [setFrame, h, findFrame, ih]

/-- Unfolding `findFrame` over a cons cell without destructuring the
head pair. -/
theorem findFrame_cons (p : Str × CachedFrame) (t : Registry) (key : Str) :
    findFrame (p :: t) key = if p.1 = key then some p.2 else findFrame t key := by
  obtain ⟨a, b⟩ := p
  rfl

/-- The transform block always reports a transform, with the data it was
handed as input, and never an exact-reuse. -/
theorem getDataTransform_trace (eng : Engine) (reg : Registry) (cacheKey : Str)
    (dataIn : Nat) (req : Req) (cf : Option CachedFrame) (data1 : Nat) :
    (getDataTransform eng reg cacheKey dataIn req cf data1).transformCalled = true ∧
    (getDataTransform eng reg cacheKey dataIn req cf data1).transformInput = some data1 ∧
    (getDataTransform eng reg cacheKey dataIn req cf data1).hasTransform = false := by
  unfold getDataTransform
  split <;> exact ⟨rfl, rfl, rfl⟩

/-- The empty string is a filter-subset superset of every string: the
numeric rule cannot apply (no digits to match) and the empty string is a
prefix of everything. -/
theorem isFilterSubset_nil_left (s : Str) : isFilterSubset [] s = true := by
  unfold isFilterSubset
  by_cases h : s = []
  · subst h; simp
  · simp only [h, if_false]
    cases hs : searchNumFilter s
    · simp [searchNumFilter]
    · rename_i m
      obtain ⟨a, b⟩ := m
      simp [searchNumFilter]

/-- A frame whose working search and working filters are all empty is a
superset of every request. -/
theorem emptyWorking_isSupersetOf (f : CachedFrame) (s : Str) (fs : List Str)
    (hws : f.workingSearch = []) (hwf : ∀ w ∈ f.workingFilters, w = []) :
    f.isSupersetOf s fs = true := by
  unfold CachedFrame.isSupersetOf
  rw [hws]
  simp only [Bool.and_eq_true, List.all_eq_true, List.mem_range]
  constructor
  · exact isFilterSubset_nil_left _
  · intro i hi
    have hlt : i < f.workingFilters.length := lt_of_lt_of_le hi (min_le_right _ _)
    have hgd : f.workingFilters.getD i [] = [] := by
      rw [List.getD_eq_getElem _ _ hlt]
      exact hwf _ (List.getElem_mem hlt)
    rw [hgd]
    exact isFilterSubset_nil_left _

/-- The transform block keeps the cache key registered: it either leaves
the registry alone or overwrites the entry for this key. -/
theorem getDataTransform_keeps (eng : Engine) (reg : Registry) (cacheKey : Str)
    (dataIn : Nat) (req : Req) (cf : Option CachedFrame) (data1 : Nat)
    (h : (findFrame reg cacheKey).isSome = true) :
    (findFrame (getDataTransform eng reg cacheKey dataIn req cf data1).reg
      cacheKey).isSome = true := by
  unfold getDataTransform
  split
  · exact h
  · cases cf with
    | none => exact h
    | some f => simp [recordReg, finishPage, findFrame_setFrame_self]

/-- A page request never removes the registry entry for its cache key. -/
theorem getData_keeps_key (eng : Engine) (reg : Registry) (cacheKey : Str)
    (dataIn : Nat) (req : Req)
    (h : (findFrame reg cacheKey).isSome = true) :
    (findFrame (getData eng reg cacheKey dataIn req).reg cacheKey).isSome = true := by
  unfold getData
  cases hn : needsTransformReq eng dataIn req
  · exact h
  · cases hcf : findFrame reg cacheKey with
    | none =>
      dsimp only
      exact getDataTransform_keeps eng reg cacheKey dataIn req none dataIn h
    | some f =>
      dsimp only
      unfold getDataWorking
      cases hw : eng.findWorkingData cacheKey with
      | none => exact getDataTransform_keeps eng reg cacheKey dataIn req (some f) dataIn h
      | some wd =>
        dsimp only
        split_ifs with h1 h2
        · exact h
        · exact getDataTransform_keeps eng reg cacheKey dataIn req (some f) wd h
        · exact getDataTransform_keeps eng reg cacheKey dataIn req (some f) dataIn h

/-- The registry component of the `show=data` branch is the registry
left by `getData`, whether or not the page threw. -/
theorem dataBranch_reg (eng : Engine) (reg1 : Registry) (cacheKey : Str)
    (d : Nat) (dreq : Req) :
    (dataBranch eng reg1 cacheKey d dreq).2 = (getData eng reg1 cacheKey d dreq).reg := by
  unfold dataBranch
  split <;> rfl

/-- A request that needs no transform records nothing: working
parameters are only ever recorded by a transforming request. -/
theorem getData_no_transform_no_record (eng : Engine) (reg : Registry)
    (cacheKey : Str) (dataIn : Nat) (req : Req)
    (hn : needsTransformReq eng dataIn req = false) :
    (getData eng reg cacheKey dataIn req).reg = reg := by
  unfold getData
  rw [hn]
  cases findFrame reg cacheKey <;> rfl

/-- Successful pages out of `finishPage` satisfy the clamp equations. -/
theorem finishPage_clampOK (eng : Engine) (reg : Registry) (req : Req)
    (dataIn dataCur : Nat) (needsT hasT : Bool) (tInput : Option Nat) :
    ∀ g, (finishPage eng reg req dataIn dataCur needsT hasT tInput).result = Except.ok g →
      (finishPage eng reg req dataIn dataCur needsT hasT tInput).effLength =
        min req.length
          ((finishPage eng reg req dataIn dataCur needsT hasT tInput).filteredNRow -
            req.start) ∧
      (finishPage eng reg req dataIn dataCur needsT hasT tInput).effStart = req.start + 1 ∧
      g.grid.length =
        (min req.length
          ((finishPage eng reg req dataIn dataCur needsT hasT tInput).filteredNRow -
            req.start)).toNat := by
  intro g hg
  exact ⟨rfl, rfl, (pageResult_ok eng req dataIn dataCur _ _ _ g hg).2.2.2⟩

/-- Successful pages out of the transform block satisfy the clamp
equations. -/
theorem getDataTransform_clampOK (eng : Engine) (reg : Registry) (cacheKey : Str)
    (dataIn : Nat) (req : Req) (cf : Option CachedFrame) (data1 : Nat) :
    ∀ g, (getDataTransform eng reg cacheKey dataIn req cf data1).result = Except.ok g →
      (getDataTransform eng reg cacheKey dataIn req cf data1).effLength =
        min req.length
          ((getDataTransform eng reg cacheKey dataIn req cf data1).filteredNRow -
            req.start) ∧
      (getDataTransform eng reg cacheKey dataIn req cf data1).effStart = req.start + 1 ∧
      g.grid.length =
        (min req.length
          ((getDataTransform eng reg cacheKey dataIn req cf data1).filteredNRow -
            req.start)).toNat := by
  unfold getDataTransform
  split
  · intro g hg; cases hg
  · exact finishPage_clampOK eng _ req dataIn _ true false (some data1)

/-- The replacement step never changes an entry's key. -/
theorem detectStep_fst (eng : Engine) (p : Str × CachedFrame) :
    (detectStep eng p).1 = p.1 := by
  unfold detectStep
  split <;> rfl

/-- After a scan, a key held with a unique binding maps to the stepped
frame. -/
theorem findFrame_map_detectStep (eng : Engine) (reg : Registry) (k : Str)
    (f : CachedFrame) (hnd : (reg.map Prod.fst).Nodup) (hmem : (k, f) ∈ reg) :
    findFrame (reg.map (detectStep eng)) k = some (detectStep eng (k, f)).2 := by
  induction reg with
  | nil => cases hmem
  | cons p t ih =>
    simp only [List.map_cons, List.nodup_cons] at hnd
    rcases List.mem_cons.mp hmem with heq | htail
    · subst heq
      rw [List.map_cons, findFrame_cons, detectStep_fst]
      simp
    · have hak : p.1 ≠ k := by
        intro hak
        exact hnd.1 (hak ▸ List.mem_map_of_mem Prod.fst htail)
      rw [List.map_cons, findFrame_cons, detectStep_fst, if_neg hak]
      exact ih hnd.2 htail

/-
Claim theorems.
-/

/-- C1: for every page request that needs a transform, whose cache key
has a registry entry, and for which the engine holds materialized working
data whose recorded workingSearch, workingFilters, workingOrderCol and
workingOrderDir exactly equal the request's search, filters, order column
and order direction, the working transform is reused verbatim: the
transform is not invoked, hasTransform is set, needsTransform is cleared,
the registry is untouched, and recordsFiltered is the working transform's
row count.  (Parameters are only ever recorded by a transforming request,
see `getData_no_transform_no_record`, so recorded parameters equal to the
request's entail that the request needs a transform.) -/
theorem getData_reuses_exact_match (eng : Engine) (reg : Registry)
    (cacheKey : Str) (dataIn wd : Nat) (req : Req) (f : CachedFrame)
    (hf : findFrame reg cacheKey = some f)
    (hw : eng.findWorkingData cacheKey = some wd)
    (hs : f.workingSearch = req.search)
    (hfl : f.workingFilters = filtersFor req (eng.ncolOf dataIn))
    (ho : f.workingOrderCol = req.ordercol)
    (hd : f.workingOrderDir = req.orderdir)
    (hn : needsTransformReq eng dataIn req = true) :
    (getData eng reg cacheKey dataIn req).transformCalled = false ∧
    (getData eng reg cacheKey dataIn req).hasTransform = true ∧
    (getData eng reg cacheKey dataIn req).needsTransform = false ∧
    (getData eng reg cacheKey dataIn req).filteredNRow = eng.nrowOf wd ∧
    (getData eng reg cacheKey dataIn req).reg = reg ∧
    (∀ g, (getData eng reg cacheKey dataIn req).result = Except.ok g →
      g.recordsFiltered = eng.nrowOf wd) := by
  unfold getData
  rw [hn, hf]
  dsimp only
  unfold getDataWorking
  rw [hw]
  dsimp only
  rw [if_pos ⟨hs, hfl, hd, ho⟩]
  refine ⟨rfl, rfl, rfl, rfl, rfl, ?_⟩
  intro g hg
  exact (pageResult_ok eng req dataIn wd _ _ _ g hg).1

/-- C1 witness: against `engWd` (working data object 9, 3 rows) and the
recorded frame `fRec`, the request `reqSearch` with identical parameters
reuses the working data verbatim. -/
theorem getData_reuses_exact_match_witness :
    (getData engWd regRec kKey 0 reqSearch).transformCalled = false ∧
    (getData engWd regRec kKey 0 reqSearch).hasTransform = true ∧
    (getData engWd regRec kKey 0 reqSearch).needsTransform = false ∧
    (getData engWd regRec kKey 0 reqSearch).filteredNRow = 3 := by
  obtain ⟨h1, h2, h3, h4, -, -⟩ :=
    getData_reuses_exact_match engWd regRec kKey 0 9 reqSearch fRec
      rfl rfl rfl rfl rfl rfl rfl
  exact ⟨h1, h2, h3, h4.trans rfl⟩

/-- C2 counterexample: the claim routes `x1-10y` versus `x3-7z` to the
prefix rule (neither string parses in its entirety as a numeric range) and
so predicts false, but the code searches for a numeric-range substring and
returns true. -/
theorem isFilterSubsetClaimC2_counterexample :
    isFilterSubset "x1-10y".toList "x3-7z".toList = true ∧
    isFilterSubsetClaimC2 "x1-10y".toList "x3-7z".toList = false ∧
    parseWholeRange "x1-10y".toList = none ∧
    parseWholeRange "x3-7z".toList = none := by
  exact ⟨by decide, by decide, by decide, by decide⟩

/-- C2 amended: equal strings are subsets; otherwise, when both strings
contain a numeric-range substring `<lower>-<upper>` (optional fractional
parts), the result is true iff the first matched range in `inner` has
lower bound at least `outer`'s and upper bound at most `outer`'s;
otherwise the result is true iff `inner` is at least as long as `outer`
and starts with `outer`.  The four concrete example evaluations of the
claim all hold. -/
theorem isFilterSubset_amended_characterization :
    (∀ outer inner : Str,
      isFilterSubset outer inner = isFilterSubsetAmendedSpec outer inner) ∧
    isFilterSubset "1-10".toList "3-7".toList = true ∧
    isFilterSubset "abc".toList "abcd".toList = true ∧
    isFilterSubset "3-7".toList "1-10".toList = false ∧
    isFilterSubset "abcd".toList "abc".toList = false := by
  refine ⟨?_, by decide, by decide, by decide, by decide⟩
  intro outer inner
  unfold isFilterSubset isFilterSubsetAmendedSpec
  by_cases he : inner = outer
  · simp [he]
  · simp only [he, if_false, decide_False, Bool.false_or]
    cases hi : searchNumFilter inner <;> cases ho : searchNumFilter outer
    · split_ifs with h1 h2 <;> simp_all
    · rename_i m
      obtain ⟨a, b⟩ := m
      split_ifs with h1 h2 <;> simp_all
    · rename_i m
      obtain ⟨a, b⟩ := m
      split_ifs with h1 h2 <;> simp_all
    · rename_i m1 m2
      obtain ⟨a, b⟩ := m1
      obtain ⟨c, d⟩ := m2
      rfl

/-- C3 counterexample: a request starting past the filtered row count
gets a negative effective page length (the code clamps with
`min(length, filteredNRow - start)` and no lower bound at zero), refuting
the claim that the effective length is never negative. -/
theorem getData_negative_length_counterexample :
    reqFar.start = 7 ∧ reqFar.length = 10 ∧
    (getData engBase [] kKey 0 reqFar).filteredNRow = 5 ∧
    (getData engBase [] kKey 0 reqFar).effLength = -2 ∧
    (getData engBase [] kKey 0 reqFar).effLength < 0 := by
  exact ⟨rfl, rfl, rfl, rfl, by decide⟩

/-- C3 amended: for every page request that is answered successfully,
the effective page length equals `min(length, filteredRowCount - start)`
(which may be negative when `start` exceeds `filteredRowCount`), the
start index is converted to 1-based for the formatting calls, and the
assembled grid has exactly `max(0, min(length, filteredRowCount - start))`
rows (the `Int.toNat` of the clamped length). -/
theorem getData_page_clamp (eng : Engine) (reg : Registry) (cacheKey : Str)
    (dataIn : Nat) (req : Req) :
    ∀ g, (getData eng reg cacheKey dataIn req).result = Except.ok g →
      (getData eng reg cacheKey dataIn req).effLength =
        min req.length ((getData eng reg cacheKey dataIn req).filteredNRow - req.start) ∧
      (getData eng reg cacheKey dataIn req).effStart = req.start + 1 ∧
      g.grid.length =
        (min req.length
          ((getData eng reg cacheKey dataIn req).filteredNRow - req.start)).toNat := by
  unfold getData
  cases hn : needsTransformReq eng dataIn req
  · cases hcf : findFrame reg cacheKey <;>
      exact finishPage_clampOK eng reg req dataIn dataIn false false none
  · cases hcf : findFrame reg cacheKey with
    | none => exact getDataTransform_clampOK eng reg cacheKey dataIn req none dataIn
    | some f =>
      dsimp only
      unfold getDataWorking
      cases hw : eng.findWorkingData cacheKey with
      | none => exact getDataTransform_clampOK eng reg cacheKey dataIn req (some f) dataIn
      | some wd =>
        dsimp only
        split_ifs with h1 h2
        · exact finishPage_clampOK eng reg req dataIn wd false true none
        · exact getDataTransform_clampOK eng reg cacheKey dataIn req (some f) wd
        · exact getDataTransform_clampOK eng reg cacheKey dataIn req (some f) dataIn

/-- C3 witness: a request with start 0 and length 10 against 5 filtered
rows returns exactly 5 rows, with the length clamped to 5. -/
theorem getData_page_clamp_witness :
    (getData engBase [] kKey 0 reqPlain).result = Except.ok gPlain ∧
    gPlain.grid.length = 5 ∧
    (getData engBase [] kKey 0 reqPlain).effLength = 5 := by
  have hres : (getData engBase [] kKey 0 reqPlain).result = Except.ok gPlain := rfl
  obtain ⟨h1, h2, h3⟩ := getData_page_clamp engBase [] kKey 0 reqPlain gPlain hres
  exact ⟨hres, h3.trans (by decide), h1.trans (by decide)⟩

/-- C4: `isSupersetOf` holds iff the working search is a filter-subset
superset of the new search and, for every index strictly below the
minimum of the two filter-list lengths, the working filter at that index
is a filter-subset superset of the new filter there; entries beyond the
shorter list are never compared, so trailing unmatched indices cannot make
the result false. -/
theorem isSupersetOf_characterization (f : CachedFrame) (s : Str)
    (fs : List Str) :
    f.isSupersetOf s fs = true ↔
      (isFilterSubset f.workingSearch s = true ∧
       ∀ i, i < min fs.length f.workingFilters.length →
         isFilterSubset (f.workingFilters.getD i []) (fs.getD i []) = true) := by
  simp [CachedFrame.isSupersetOf, List.all_eq_true, List.mem_range]

/-- C4 witness: a frame with one recorded working filter is a superset of
a narrower request with three requested filters; the two trailing
requested filters are never compared. -/
theorem isSupersetOf_characterization_witness :
    fTrail.isSupersetOf [] ["2-3".toList, "zz".toList, "qq".toList] = true := by
  refine (isSupersetOf_characterization fTrail [] _).mpr ⟨by decide, ?_⟩
  intro i hi
  have h0 : i = 0 := by
    have h1 : min ([ "2-3".toList, "zz".toList, "qq".toList ].length)
        fTrail.workingFilters.length = 1 := by decide
    omega
  subst h0
  decide

/-- C5: whenever the change scan re-resolves a registered frame's
identity to a value differing from the observed one, it emits the frame's
cache key among the discard instructions, emits a notification carrying
the cache key and a structure-changed flag that is true iff the new
identity's column count or column names differ from the recorded ones,
and replaces the registry entry with a fresh frame carrying the new
identity and shape whose working-transform fields are reset. -/
theorem onDetectChanges_invalidation (eng : Engine) (reg : Registry)
    (k : Str) (f : CachedFrame) (s : Nat)
    (hnd : (reg.map Prod.fst).Nodup) (hmem : (k, f) ∈ reg)
    (hres : findInNamedEnvir eng f.envName f.objName = some s)
    (hdiff : f.observedSEXP ≠ some s) :
    k ∈ (onDetectChanges eng reg).2.2 ∧
    (k, decide (f.ncol ≠ eng.ncolOf s ∨ f.colNames ≠ (eng.colNamesOf s).getD []))
      ∈ (onDetectChanges eng reg).2.1 ∧
    findFrame (onDetectChanges eng reg).1 k = some
      { envName := f.envName, objName := f.objName
        ncol := eng.ncolOf s, colNames := (eng.colNamesOf s).getD []
        workingSearch := [], workingFilters := []
        workingOrderCol := eng.junkOrderCol, workingOrderDir := []
        observedSEXP := some s } := by
  have hch : frameChanged eng f = true := by
    unfold frameChanged
    rw [hres]
    exact decide_eq_true (Ne.symm hdiff)
  refine ⟨?_, ?_, ?_⟩
  · unfold onDetectChanges detectDiscards
    exact List.mem_filterMap.mpr ⟨(k, f), hmem, by simp [hch]⟩
  · unfold onDetectChanges detectEvents
    exact List.mem_filterMap.mpr ⟨(k, f), hmem, by simp [hch, hres, CachedFrame.make]⟩
  · unfold onDetectChanges
    rw [findFrame_map_detectStep eng reg k f hnd hmem]
    simp [detectStep, hch, hres, CachedFrame.make]

/-- C5 witness: a frame observing identity 0 with columns (a, b)
re-resolves to identity 8; with a third column added the event flag is
true, with an identical shape it is false, and the working data for the
key is discarded. -/
theorem onDetectChanges_invalidation_witness :
    (kKey, true) ∈ (onDetectChanges engCh [(kKey, fObs)]).2.1 ∧
    (kKey, false) ∈ (onDetectChanges engCh2 [(kKey, fObs)]).2.1 ∧
    kKey ∈ (onDetectChanges engCh [(kKey, fObs)]).2.2 := by
  obtain ⟨hd1, he1, -⟩ :=
    onDetectChanges_invalidation engCh [(kKey, fObs)] kKey fObs 8
      (by simp) (by simp) rfl (by decide)
  obtain ⟨-, he2, -⟩ :=
    onDetectChanges_invalidation engCh2 [(kKey, fObs)] kKey fObs 8
      (by simp) (by simp) rfl (by decide)
  exact ⟨he1, he2, hd1⟩

/-- C6 (code bug): a grid-data request whose object cannot be resolved is
answered with the body `error: The object no longer exists.` but with
HTTP status 200, not the claimed 404: the source assigns NotFound to a
local `statusCode` variable that is never read, while the `status`
variable actually written into the response stays Ok. -/
theorem getGridData_missing_object_bug :
    (getGridData engGone [] qReq).1 = some (200, Body.errB objGoneMsg) ∧
    objGoneMsg = "The object no longer exists.".toList := by
  exact ⟨rfl, rfl⟩

/-- C7 (code bug): a failing transform call does not fail the request and
its message is lost: the source discards the Error returned by
`transform.call` (the subsequent check reads a stale variable), so the
page is served successfully from the untransformed input data (the
filtered row count equals the raw data's row count). -/
theorem getData_transform_error_swallowed :
    engErr.applyTransform 0 (filtersFor reqSearch (engErr.ncolOf 0))
      reqSearch.search reqSearch.ordercol reqSearch.orderdir =
      Except.error "boom".toList ∧
    (getData engErr [] kKey 0 reqSearch).transformCalled = true ∧
    (getData engErr [] kKey 0 reqSearch).result.isOk = true ∧
    (getData engErr [] kKey 0 reqSearch).filteredNRow = engErr.nrowOf 0 := by
  exact ⟨rfl, rfl, rfl, rfl⟩

/-- C8 counterexample: a grid-data request whose environment parameter is
the unbound sentinel `_rs_no_env` is served (a response is produced) but
creates no registry entry for its previously unseen cache key, refuting
the claim for every grid page request. -/
theorem getGridData_unbound_env_counterexample :
    qNoEnv.cacheKey = kKey ∧
    (getGridData engBase [] qNoEnv).1.isSome = true ∧
    findFrame (getGridData engBase [] qNoEnv).2 kKey = none := by
  exact ⟨rfl, rfl, rfl⟩

/-- C8 amended: for every grid-data request with a query string, a
non-empty cache key, and an environment name other than the unbound
sentinel, when the cache key has no registry entry the observe step
inserts a `CachedFrame` built from the scope/object lookup (null identity
when unresolvable), and after the whole request the registry still
contains an entry for that cache key. -/
theorem getGridData_creates_frame (eng : Engine) (reg : Registry)
    (q : GridReq) (hq : q.hasQuery = true) (hk : q.cacheKey ≠ [])
    (he : q.envName ≠ kNoBoundEnv)
    (habs : findFrame reg q.cacheKey = none) :
    findFrame (observeFrame eng reg q) q.cacheKey =
      some (CachedFrame.make eng q.envName q.objName
        (findInNamedEnvir eng q.envName q.objName)) ∧
    (findFrame (getGridData eng reg q).2 q.cacheKey).isSome = true := by
  have h1 : findFrame (observeFrame eng reg q) q.cacheKey =
      some (CachedFrame.make eng q.envName q.objName
        (findInNamedEnvir eng q.envName q.objName)) := by
    unfold observeFrame
    rw [if_pos he, habs]
    exact findFrame_setFrame_self reg q.cacheKey _
  refine ⟨h1, ?_⟩
  unfold getGridData
  rw [if_neg (fun hcon => hcon hq), if_neg (fun hcon => hk hcon.2)]
  cases hr : resolveData eng q with
  | none =>
    dsimp only
    rw [h1]
    rfl
  | some d =>
    dsimp only
    split_ifs with hs1 hs2
    · rw [h1]; rfl
    · rw [dataBranch_reg]
      exact getData_keeps_key eng _ q.cacheKey d q.dreq (by rw [h1]; rfl)
    · rw [h1]; rfl

/-- C8 witness: a first request for cache key `K` in the global
environment leaves a registry entry for `K`. -/
theorem getGridData_creates_frame_witness :
    (findFrame (getGridData engBase [] qReq).2 kKey).isSome = true := by
  exact (getGridData_creates_frame engBase [] qReq rfl (by decide) (by decide) rfl).2

/-- C9: the empty string is a filter-subset superset of every string; a
frame whose working search and working filters are all empty satisfies
`isSupersetOf` for every request; and a request against such a frame
(with working data present) that adds a non-empty search or filter takes
the superset-narrowing path — the transform runs with the working data as
its input — rather than verbatim reuse. -/
theorem isFilterSubset_empty_is_superset :
    (∀ s : Str, isFilterSubset [] s = true) ∧
    (∀ (f : CachedFrame) (s : Str) (fs : List Str),
      f.workingSearch = [] → (∀ w ∈ f.workingFilters, w = []) →
      f.isSupersetOf s fs = true) ∧
    (∀ (eng : Engine) (reg : Registry) (cacheKey : Str) (dataIn wd : Nat)
      (req : Req) (f : CachedFrame),
      findFrame reg cacheKey = some f →
      eng.findWorkingData cacheKey = some wd →
      f.workingSearch = [] → (∀ w ∈ f.workingFilters, w = []) →
      (req.search ≠ [] ∨ ∃ fv ∈ filtersFor req (eng.ncolOf dataIn), fv ≠ []) →
      (getData eng reg cacheKey dataIn req).transformCalled = true ∧
      (getData eng reg cacheKey dataIn req).transformInput = some wd ∧
      (getData eng reg cacheKey dataIn req).hasTransform = false) := by
  refine ⟨isFilterSubset_nil_left, ?_, ?_⟩
  · intro f s fs hws hwf
    exact emptyWorking_isSupersetOf f s fs hws hwf
  · intro eng reg cacheKey dataIn wd req f hf hw hws hwf hne
    have hn : needsTransformReq eng dataIn req = true := by
      unfold needsTransformReq
      rcases hne with h | ⟨fv, hmem, hfv⟩
      · simp [h]
      · simp only [Bool.or_eq_true, List.any_eq_true]
        exact Or.inl (Or.inr ⟨fv, hmem, by simp [hfv]⟩)
    have hsup : f.isSupersetOf req.search (filtersFor req (eng.ncolOf dataIn)) = true :=
      emptyWorking_isSupersetOf f _ _ hws hwf
    have hneq : ¬(f.workingSearch = req.search ∧
        f.workingFilters = filtersFor req (eng.ncolOf dataIn) ∧
        f.workingOrderDir = req.orderdir ∧ f.workingOrderCol = req.ordercol) := by
      rintro ⟨h1, h2, h3, h4⟩
      rcases hne with h | ⟨fv, hmem, hfv⟩
      · exact h (by rw [← h1, hws])
      · exact hfv (hwf fv (by rw [h2]; exact hmem))
    unfold getData
    rw [hn, hf]
    dsimp only
    unfold getDataWorking
    rw [hw]
    dsimp only
    rw [if_neg hneq, if_pos hsup]
    exact getDataTransform_trace eng reg cacheKey dataIn req (some f) wd

/-- C9 witness: against an all-empty frame with working data (object 9),
the request adding the search `app` invokes the transform with the
working data as input and does not reuse it verbatim. -/
theorem isFilterSubset_empty_is_superset_witness :
    (getData engWd [(kKey, fEmpty)] kKey 0 reqSearch).transformCalled = true ∧
    (getData engWd [(kKey, fEmpty)] kKey 0 reqSearch).transformInput = some 9 ∧
    (getData engWd [(kKey, fEmpty)] kKey 0 reqSearch).hasTransform = false := by
  exact isFilterSubset_empty_is_superset.2.2 engWd [(kKey, fEmpty)] kKey 0 9
    reqSearch fEmpty rfl rfl rfl (by decide) (Or.inl (by decide))

/-- C10: for unequal strings that both contain a numeric-range substring
(digits-digits with optional fractional parts), `isFilterSubset` is
decided purely by bound containment on the first matched pair of bounds
in each string, with all surrounding text ignored — not by the prefix
rule. -/
theorem isFilterSubset_numeric_substring (outer inner ol ou il iu : Str)
    (hne : inner ≠ outer)
    (ho : searchNumFilter outer = some (ol, ou))
    (hi : searchNumFilter inner = some (il, iu)) :
    isFilterSubset outer inner =
      decide (stringToQ il ≥ stringToQ ol ∧ stringToQ iu ≤ stringToQ ou) := by
  unfold isFilterSubset
  rw [if_neg hne, hi, ho]

/-- C10 witness: `x1-2y` embeds the range 1-2 and `a1.5-2b` embeds
1.5-2, so the strings are compared by bound containment (true), although
neither is a prefix of the other. -/
theorem isFilterSubset_numeric_substring_witness :
    isFilterSubset "x1-2y".toList "a1.5-2b".toList = true := by
  have h := isFilterSubset_numeric_substring "x1-2y".toList "a1.5-2b".toList
    "1".toList "2".toList "1.5".toList "2".toList (by decide) rfl rfl
  exact h.trans (by decide)
